import Mathlib

/-!
Verification of the chromatic-cli pipeline engine against its specification.

The development shallowly embeds the pipeline code:
- `src/bin/tasks/prepareWorkspace.js` (workspace preparation gates and restore),
- `src/bin/tasks/verify.js` (environment filtering and build registration),
- the upload task (`validateFiles`, `traceChangedFiles`, `uploadStorybook`),
  whose implementation file is not part of the sources here; those parts are
  modelled from the specification, constrained by `src/node-src/tasks/upload.test.ts`.

External collaborators (git plumbing, dependency installation, the network and
the filesystem) are modelled as explicit inputs, and each outcome records both
the resulting context mutations and a trace of which collaborators were called.

The file lists the data model and operations first, then the theorems.
-/

namespace Chromatic

/-! ## Data model and operations

### WorkspacePreparer: src/bin/tasks/prepareWorkspace.js -/

/-- Results of the external collaborators consulted by `prepareWorkspace`:
`isClean()` and `isUpToDate()` from git, the `findMergeBase` result
(`none` when the two refs have no common ancestor), the outcome of
`installDependencies()` (`some msg` is a failure), and whether workspace
restoration itself succeeds. -/
structure WorkspaceEnv where
  isClean : Bool
  isUpToDate : Bool
  mergeBase : Option String
  installError : Option String
  restoreOk : Bool
deriving Repr, DecidableEq

/-- Outcome of running `prepareWorkspace`: the context fields it mutates
(`exitCode`, `userError`, `mergeBase`), the error it throws (`none` means it
returned normally), and a trace of collaborator calls. -/
structure PrepareOutcome where
  exitCode : Option Nat
  userError : Bool
  mergeBase : Option String
  thrownError : Option String
  calledFindMergeBase : Bool
  calledCheckout : Bool
  restoreCalls : Nat
  restoreSucceeded : Option Bool
deriving Repr, DecidableEq

/-- Modelled from the spec: `runRestoreWorkspace` lives in
`src/bin/tasks/restoreWorkspace.js`, which is not among the sources. Per the
spec, restoration failures "should be logged but must not mask the original
error", so restoration reports whether it succeeded and never throws. -/
def runRestoreWorkspace (restoreOk : Bool) : Bool := restoreOk

/-- Shallow embedding of `prepareWorkspace` from
`src/bin/tasks/prepareWorkspace.js`. Gates are checked in source order: a
dirty tree throws with exit code 101 before `findMergeBase` is consulted; a
stale tree throws with 102; a missing merge base throws with 103; all three
set `userError`. After checkout, an installation failure sets 104, calls
`runRestoreWorkspace` once, and throws the installation failure. -/
def prepareWorkspace (env : WorkspaceEnv) : PrepareOutcome :=
  if !env.isClean then
    { exitCode := some 101, userError := true, mergeBase := none,
      thrownError := some "Working directory is not clean",
      calledFindMergeBase := false, calledCheckout := false,
      restoreCalls := 0, restoreSucceeded := none }
  else if !env.isUpToDate then
    { exitCode := some 102, userError := true, mergeBase := none,
      thrownError := some "Workspace not up-to-date with remote",
      calledFindMergeBase := false, calledCheckout := false,
      restoreCalls := 0, restoreSucceeded := none }
  else
    match env.mergeBase with
    | none =>
      { exitCode := some 103, userError := true, mergeBase := none,
        thrownError := some "Could not find a merge base",
        calledFindMergeBase := true, calledCheckout := false,
        restoreCalls := 0, restoreSucceeded := none }
    | some mb =>
      match env.installError with
      | none =>
        { exitCode := none, userError := false, mergeBase := some mb,
          thrownError := none,
          calledFindMergeBase := true, calledCheckout := true,
          restoreCalls := 0, restoreSucceeded := none }
      | some _ =>
        { exitCode := some 104, userError := false, mergeBase := some mb,
          thrownError := some "Failed to install dependencies",
          calledFindMergeBase := true, calledCheckout := true,
          restoreCalls := 1, restoreSucceeded := some (runRestoreWorkspace env.restoreOk) }

/-! ### BuildRegistrar: src/bin/tasks/verify.js -/

/-- Quota flags of `build.app.account` in the build-creation response. -/
structure Account where
  exceededThreshold : Bool
  paymentRequired : Bool
deriving Repr, DecidableEq

/-- Purchased features of the created build (`build.features`). -/
structure Features where
  uiTests : Bool
  uiReview : Bool
deriving Repr, DecidableEq

/-- App data of the build-creation response (`build.app`). -/
structure App where
  account : Account
deriving Repr, DecidableEq

/-- The build record returned by `TesterCreateBuildMutation`, restricted to
the fields `createBuild` inspects. -/
structure Build where
  number : Nat
  wasLimited : Bool
  features : Features
  app : App
  autoAcceptChanges : Bool
deriving Repr, DecidableEq

/-- The options and git facts `createBuild` reads: the `list` flag, and the
results of `git.matchesBranch` applied to `options.autoAcceptChanges` and
`options.exitOnceUploaded`. -/
structure VerifyOptions where
  list : Bool
  matchesAutoAcceptChanges : Bool
  matchesExitOnceUploaded : Bool
deriving Repr, DecidableEq

/-- Outcome of `createBuild`: the sequence of assignments it makes to
`ctx.exitCode` in program order, the final `ctx.exitCode` (given its value on
entry), and the other context fields it sets. -/
structure CreateBuildOutcome where
  exitCodeAssignments : List Nat
  exitCode : Option Nat
  skipSnapshots : Bool
  isPublishOnly : Bool
  isOnboarding : Bool
deriving Repr, DecidableEq

/-- Shallow embedding of `createBuild` from `src/bin/tasks/verify.js`. When
`build.wasLimited` it assigns `ctx.exitCode` 101 on `exceededThreshold`, else
102 on `paymentRequired`, else 100; afterwards, when the run is list-only,
publish-only or matches the `exitOnceUploaded` branch policy, it assigns
`ctx.exitCode = 0` and sets `skipSnapshots`. -/
def createBuild (initialExitCode : Option Nat) (opts : VerifyOptions)
    (build : Build) : CreateBuildOutcome :=
  let isPublishOnly := !build.features.uiReview && !build.features.uiTests
  let limitedAssignments : List Nat :=
    if build.wasLimited then
      if build.app.account.exceededThreshold then [101]
      else if build.app.account.paymentRequired then [102]
      else [100]
    else []
  let earlyExit := opts.list || isPublishOnly || opts.matchesExitOnceUploaded
  let assignments := limitedAssignments ++ (if earlyExit then [0] else [])
  { exitCodeAssignments := assignments,
    exitCode := (assignments.getLast?).orElse fun _ => initialExitCode,
    skipSnapshots := earlyExit,
    isPublishOnly := isPublishOnly,
    isOnboarding :=
      build.number == 1 || (build.autoAcceptChanges && !opts.matchesAutoAcceptChanges) }

/-! ### setEnvironment: src/bin/tasks/verify.js -/

/-- The `key.match(regex)` test against `ctx.env.ENVIRONMENT_WHITELIST`: a
key is whitelisted when at least one of the whitelist regexes (modelled as
key predicates) matches it. -/
def matchesWhitelist (whitelist : List (String → Bool)) (key : String) : Bool :=
  whitelist.any fun regex => regex key

/-- The object built by the `reduce` in `setEnvironment`: the entries of
`process.env` (in enumeration order) whose keys match the whitelist. -/
def whitelistedEntries (whitelist : List (String → Bool))
    (env : List (String × String)) : List (String × String) :=
  env.filter fun kv => matchesWhitelist whitelist kv.1

/-- JSON string escaping for `JSON.stringify` of a string value. -/
def jsonEscape (s : String) : String :=
  s.foldl (fun acc c =>
    acc ++ (if c = '"' then "\\\"" else if c = '\\' then "\\\\" else String.singleton c)) ""

/-- `JSON.stringify` of a string-to-string object whose entries are given in
insertion order. -/
def jsonStringifyObj (entries : List (String × String)) : String :=
  "\x7b" ++ String.intercalate ","
    (entries.map fun kv => "\"" ++ jsonEscape kv.1 ++ "\":\"" ++ jsonEscape kv.2 ++ "\"")
    ++ "\x7d"

/-- Shallow embedding of `setEnvironment` from `src/bin/tasks/verify.js`: the
serialized `ctx.environment` built from the process environment and the
whitelist. -/
def setEnvironment (whitelist : List (String → Bool))
    (env : List (String × String)) : String :=
  jsonStringifyObj (whitelistedEntries whitelist env)

/-! ### UploadEngine, validateFiles

The upload task file itself is not among the sources (only its test,
`src/node-src/tasks/upload.test.ts`, is), so the operations below are
modelled from the specification and constrained by that test. -/

/-- A file found under the build output root: its path relative to the root
and its byte size from `statSync`. -/
structure DirEntry where
  pathname : String
  size : Nat
deriving Repr, DecidableEq

/-- One entry of `fileInfo.lengths`. -/
structure FileDesc where
  knownAs : String
  pathname : String
  contentLength : Nat
deriving Repr, DecidableEq

/-- The file manifest (`ctx.fileInfo`). -/
structure FileInfo where
  paths : List String
  lengths : List FileDesc
  total : Nat
deriving Repr, DecidableEq

/-- The filesystem as the upload task sees it: a recursive listing of the
files (directory entries excluded) under a directory, and file contents for
the build-log hint file. -/
structure FileSystem where
  listDir : String → List DirEntry
  readFile : String → String

/-- The part of the context `validateFiles` reads. -/
structure ValidateCtx where
  sourceDir : String
  buildLogFile : Option String
deriving Repr, DecidableEq

/-- The context mutations of a successful `validateFiles` run: the (possibly
retargeted) `sourceDir` and the computed `fileInfo`. -/
structure ValidatedCtx where
  sourceDir : String
  fileInfo : FileInfo
deriving Repr, DecidableEq

/-- Modelled from the spec: the manifest built by listing `sourceDir`: each
listed file becomes a path and a length entry, and `total` accumulates the
byte sizes. -/
def getFileInfo (fs : FileSystem) (dir : String) : FileInfo :=
  let files := fs.listDir dir
  { paths := files.map DirEntry.pathname,
    lengths := files.map fun f => ⟨f.pathname, f.pathname, f.size⟩,
    total := (files.map DirEntry.size).sum }

/-- Modelled from the spec: a manifest is a valid Storybook build when both
`index.html` and `iframe.html` are present at the listed root. -/
def isValidStorybook (info : FileInfo) : Bool :=
  info.paths.contains "index.html" && info.paths.contains "iframe.html"

/-- The characters following the first occurrence of `marker` as a
contiguous run, or `none` when `marker` does not occur. -/
def charsAfterMarker (marker : List Char) : List Char → Option (List Char)
  | [] => none
  | c :: cs =>
    if marker.isPrefixOf (c :: cs) then some ((c :: cs).drop marker.length)
    else charsAfterMarker marker cs

/-- The characters up to (excluding) the first newline. -/
def charsToLineEnd : List Char → List Char
  | [] => []
  | c :: cs => if c = '\n' then [] else c :: charsToLineEnd cs

/-- Modelled from the spec: the "Output directory: <path>" hint scanned from
the build-log file contents. -/
def outputDirHint (content : String) : Option String :=
  match charsAfterMarker "Output directory: ".data content.data with
  | some rest => some ⟨charsToLineEnd rest⟩
  | none => none

/-- Modelled from the spec: `validateFiles` from the upload task. It builds
the manifest for `sourceDir`; if `index.html` or `iframe.html` is missing it
consults the optional build-log file for an output-directory hint, retargets
`sourceDir` there and retries exactly once, and otherwise fails with an
"Invalid Storybook build at <dir>" error. -/
def validateFiles (fs : FileSystem) (ctx : ValidateCtx) : Except String ValidatedCtx :=
  let info := getFileInfo fs ctx.sourceDir
  if isValidStorybook info then .ok ⟨ctx.sourceDir, info⟩
  else
    match ctx.buildLogFile with
    | none => .error ("Invalid Storybook build at " ++ ctx.sourceDir)
    | some logFile =>
      match outputDirHint (fs.readFile logFile) with
      | none => .error ("Invalid Storybook build at " ++ ctx.sourceDir)
      | some outDir =>
        let retried := getFileInfo fs outDir
        if isValidStorybook retried then .ok ⟨outDir, retried⟩
        else .error ("Invalid Storybook build at " ++ outDir)

/-! ### ChangeImpactTracer, traceChangedFiles -/

/-- One entry of `ctx.git.packageManifestChanges`: a commit in the diff range
together with the manifest/lockfile paths it touched. -/
structure ManifestChange where
  commit : String
  changedFiles : List String
deriving Repr, DecidableEq

/-- The options `traceChangedFiles` reads: the `untraced` and `externals`
exclusion pattern lists. -/
structure TraceOptions where
  untraced : List String
  externals : List String
deriving Repr, DecidableEq

/-- The git facts `traceChangedFiles` reads. -/
structure TraceGit where
  changedFiles : List String
  packageManifestChanges : List ManifestChange
deriving Repr, DecidableEq

/-- The external collaborators of `traceChangedFiles`: the exact dependency
resolver `findChangedDependencies` (an exception is `.error`), the coarse
manifest check `findChangedPackageFiles`, and the dependency-graph projection
`getDependentStoryFiles` (a mapping from module id to dependent story
files). -/
structure TraceEnv where
  findChangedDependencies : Except String (List String)
  findChangedPackageFiles : List ManifestChange → List String
  getDependentStoryFiles : List String → List (String × List String)

/-- The structured bail cause for manifest changes. -/
structure BailReason where
  changedPackageFiles : List String
deriving Repr, DecidableEq

/-- Outcome of `traceChangedFiles`: the `turboSnap.bailReason` and
`onlyStoryFiles` context mutations, plus a trace of the collaborator calls:
the argument `findChangedPackageFiles` was called with (when it was), and
whether `getDependentStoryFiles` was consulted. -/
structure TraceOutcome where
  bailReason : Option BailReason
  onlyStoryFiles : Option (List String)
  coarseCheckArg : Option (List ManifestChange)
  calledGetDependentStoryFiles : Bool
deriving Repr, DecidableEq

/-- Paths that survive the exclusion patterns: a path matching some pattern
(under the pattern matcher `globMatch`) is removed. -/
def filterUntraced (globMatch : String → String → Bool) (patterns : List String)
    (paths : List String) : List String :=
  paths.filter fun p => !(patterns.any fun pat => globMatch pat p)

/-- Modelled from the spec: the untraced filter applied to the manifest
changes before the coarse check; excluded paths are dropped from each commit
entry, and entries left empty are dropped. -/
def filterManifestChanges (globMatch : String → String → Bool) (untraced : List String)
    (mcs : List ManifestChange) : List ManifestChange :=
  (mcs.map fun mc => ⟨mc.commit, filterUntraced globMatch untraced mc.changedFiles⟩).filter
    fun mc => !mc.changedFiles.isEmpty

/-- Modelled from the spec: step 5 of the tracer, reached when no un-excluded
manifest change remains: the changed files surviving the `untraced` and
`externals` exclusions are projected through the dependency graph and
`onlyStoryFiles` becomes the keys of the projection. -/
def projectStoryFiles (globMatch : String → String → Bool) (env : TraceEnv)
    (opts : TraceOptions) (git : TraceGit)
    (coarseArg : Option (List ManifestChange)) : TraceOutcome :=
  let tracedFiles := filterUntraced globMatch (opts.untraced ++ opts.externals) git.changedFiles
  { bailReason := none,
    onlyStoryFiles := some ((env.getDependentStoryFiles tracedFiles).map Prod.fst),
    coarseCheckArg := coarseArg,
    calledGetDependentStoryFiles := true }

/-- Modelled from the spec: `traceChangedFiles` from the upload task. The
exact resolver is attempted first; when it fails (for any reason) or reports
real dependency changes, the coarse manifest check runs over the
untraced-filtered manifest changes, and any remaining changed manifest file
sets `bailReason = changedPackageFiles` and stops before the dependency
graph is consulted. Otherwise tracing proceeds to the graph projection. -/
def traceChangedFiles (globMatch : String → String → Bool) (env : TraceEnv)
    (opts : TraceOptions) (git : TraceGit) : TraceOutcome :=
  let filteredManifestChanges :=
    filterManifestChanges globMatch opts.untraced git.packageManifestChanges
  let useCoarseCheck : Bool :=
    match env.findChangedDependencies with
    | .ok deps => !deps.isEmpty
    | .error _ => true
  if useCoarseCheck then
    let changedPackageFiles := env.findChangedPackageFiles filteredManifestChanges
    if changedPackageFiles.isEmpty then
      projectStoryFiles globMatch env opts git (some filteredManifestChanges)
    else
      { bailReason := some ⟨changedPackageFiles⟩,
        onlyStoryFiles := none,
        coarseCheckArg := some filteredManifestChanges,
        calledGetDependentStoryFiles := false }
  else
    projectStoryFiles globMatch env opts git none

/-! ### UploadEngine, uploadStorybook -/

/-- One signed upload target returned by `GetUploadUrlsMutation`. -/
structure FileTarget where
  path : String
  url : String
  contentType : String
deriving Repr, DecidableEq

/-- One PUT request issued by the upload engine. -/
structure PutRequest where
  url : String
  contentType : String
  contentLength : Nat
deriving Repr, DecidableEq

/-- The archive produced by `makeZipFile`: its path and its own byte size. -/
structure Archive where
  path : String
  size : Nat
deriving Repr, DecidableEq

/-- Outcome of `uploadStorybook`: the PUT requests issued, the
`ctx.uploadedBytes` mutation, the isolator URL, and whether the sentinel URL
was confirmed (archive mode only). -/
structure UploadOutcome where
  requests : List PutRequest
  uploadedBytes : Nat
  isolatorUrl : String
  sentinelConfirmed : Bool
deriving Repr, DecidableEq

/-- The manifest content length recorded for a path. -/
def contentLengthOf (fi : FileInfo) (path : String) : Nat :=
  match fi.lengths.find? fun l => l.knownAs == path with
  | some l => l.contentLength
  | none => 0

/-- Modelled from the spec: `uploadStorybook` from the upload task. In
archive (zip) mode the manifest is compressed into a single archive, PUT
with content-type `application/zip` and the real archive byte length, the
sentinel is confirmed and `uploadedBytes` is the archive size. In direct
mode each target path is PUT with its manifest content length and
`uploadedBytes` ends at the manifest total; the isolator URL is the first
target. -/
def uploadStorybook (zip : Bool) (fi : FileInfo) (targets : List FileTarget)
    (domain : String) (archive : Archive) (archiveUrl : String) : UploadOutcome :=
  if zip then
    { requests := [⟨archiveUrl, "application/zip", archive.size⟩],
      uploadedBytes := archive.size,
      isolatorUrl := domain ++ "/iframe.html",
      sentinelConfirmed := true }
  else
    { requests := targets.map fun t => ⟨t.url, t.contentType, contentLengthOf fi t.path⟩,
      uploadedBytes := fi.total,
      isolatorUrl := (match targets.head? with | some t => t.url | none => domain),
      sentinelConfirmed := false }

/-- Modelled from the spec: in direct mode each file is streamed in chunks
and the per-chunk deltas of one file sum to its manifest content length; an
observed schedule of concurrent transfers is any interleaving of the
per-file chunk sequences (take the next chunk of any file that still has
one). -/
inductive IsInterleaving : List (List Nat) → List Nat → Prop
  | nil (lss : List (List Nat)) (h : ∀ l ∈ lss, l = []) : IsInterleaving lss []
  | step (lss : List (List Nat)) (i : Nat) (x : Nat) (rest : List Nat) (s : List Nat)
      (hget : lss[i]? = some (x :: rest))
      (htail : IsInterleaving (lss.set i rest) s) : IsInterleaving lss (x :: s)

/-- Modelled from the spec: the cumulative progress counter reported to the
progress callbacks, one report per chunk: each chunk adds its delta to the
counter and the new counter value is reported. -/
def progressReports (acc : Nat) : List Nat → List Nat
  | [] => []
  | d :: ds => (acc + d) :: progressReports (acc + d) ds

/-! ## Theorems -/

/-! ### Helper lemmas -/

theorem getFileInfo_total (fs : FileSystem) (dir : String) :
    (getFileInfo fs dir).total =
      ((getFileInfo fs dir).lengths.map FileDesc.contentLength).sum ∧
    (getFileInfo fs dir).paths.length = (getFileInfo fs dir).lengths.length := by
  simp [getFileInfo, List.map_map, Function.comp_def]

theorem validateFiles_ok_shape (fs : FileSystem) (ctx : ValidateCtx) (out : ValidatedCtx)
    (h : validateFiles fs ctx = .ok out) :
    out.fileInfo = getFileInfo fs out.sourceDir ∧
    isValidStorybook out.fileInfo = true := by
  simp only [validateFiles] at h
  split at h
  · rename_i hvalid
    cases h
    exact ⟨rfl, hvalid⟩
  · split at h
    · cases h
    · split at h
      · cases h
      · split at h
        · rename_i hvalid
          cases h
          exact ⟨rfl, hvalid⟩
        · cases h

theorem sum_set_of_get (lss : List (List Nat)) (i : Nat) (x : Nat) (rest : List Nat)
    (h : lss[i]? = some (x :: rest)) :
    (lss.map List.sum).sum = x + ((lss.set i rest).map List.sum).sum := by
  induction lss generalizing i with
  | nil => simp at h
  | cons hd tl ih =>
    cases i with
    | zero =>
      simp only [List.getElem?_cons_zero, Option.some_inj] at h
      subst h
      simp only [List.set_cons_zero, List.map_cons, List.sum_cons]
      omega
    | succ j =>
      simp only [List.getElem?_cons_succ] at h
      have ih2 := ih j h
      simp only [List.set_cons_succ, List.map_cons, List.sum_cons]
      omega

theorem IsInterleaving.sum_eq {lss : List (List Nat)} {s : List Nat}
    (h : IsInterleaving lss s) : s.sum = (lss.map List.sum).sum := by
  induction h with
  | nil lss h =>
    have hz : ∀ a ∈ lss.map List.sum, a = 0 := by
      intro a ha
      simp only [List.mem_map] at ha
      obtain ⟨l, hl, rfl⟩ := ha
      simp [h l hl]
    simp [List.sum_eq_zero hz]
  | step lss i x rest s hget htail ih =>
    rw [List.sum_cons, ih, sum_set_of_get lss i x rest hget]

theorem progressReports_bounds (s : List Nat) (acc : Nat) :
    ∀ r ∈ progressReports acc s, acc ≤ r ∧ r ≤ acc + s.sum := by
  induction s generalizing acc with
  | nil => simp [progressReports]
  | cons d ds ih =>
    intro r hr
    simp only [progressReports, List.mem_cons] at hr
    rcases hr with rfl | hr
    · simp only [List.sum_cons]
      omega
    · have := ih (acc + d) r hr
      simp only [List.sum_cons]
      omega

theorem progressReports_chain (s : List Nat) (acc : Nat) :
    List.Chain' (· ≤ ·) (progressReports acc s) := by
  induction s generalizing acc with
  | nil => simp [progressReports]
  | cons d ds ih =>
    cases ds with
    | nil => simp [progressReports]
    | cons d2 ds2 =>
      refine List.chain'_cons.mpr ⟨by omega, ih (acc + d)⟩

theorem progressReports_getLast (s : List Nat) (acc : Nat) (h : s ≠ []) :
    (progressReports acc s).getLast? = some (acc + s.sum) := by
  induction s generalizing acc with
  | nil => exact absurd rfl h
  | cons d ds ih =>
    cases ds with
    | nil => simp [progressReports]
    | cons d2 ds2 =>
      have htail := ih (acc + d) (by simp)
      simp only [progressReports] at htail ⊢
      rw [List.getLast?_cons_cons, htail]
      simp only [List.sum_cons]
      congr 1
      omega

/-! ### Claim theorems -/

/-- C3: `prepareWorkspace` checks its gates in order, each failing gate sets a
distinct exit code, marks `userError`, and throws: a dirty tree sets 101 and
`findMergeBase` is never called; a clean but stale tree sets 102; a clean,
up-to-date tree with no merge base sets 103. -/
theorem prepareWorkspace_gates (env : WorkspaceEnv) :
    (env.isClean = false →
      (prepareWorkspace env).exitCode = some 101 ∧
      (prepareWorkspace env).userError = true ∧
      (prepareWorkspace env).thrownError.isSome = true ∧
      (prepareWorkspace env).calledFindMergeBase = false) ∧
    (env.isClean = true → env.isUpToDate = false →
      (prepareWorkspace env).exitCode = some 102 ∧
      (prepareWorkspace env).userError = true ∧
      (prepareWorkspace env).thrownError.isSome = true) ∧
    (env.isClean = true → env.isUpToDate = true → env.mergeBase = none →
      (prepareWorkspace env).exitCode = some 103 ∧
      (prepareWorkspace env).userError = true ∧
      (prepareWorkspace env).thrownError.isSome = true) := by
  refine ⟨fun hc => ?_, fun hc hu => ?_, fun hc hu hm => ?_⟩
  · simp [prepareWorkspace, hc]
  · simp [prepareWorkspace, hc, hu]
  · simp [prepareWorkspace, hc, hu, hm]

/-- C3 witness: evaluation of the three gate scenarios at concrete inputs. -/
theorem prepareWorkspace_gates_witness :
    (prepareWorkspace ⟨false, true, some "mb", none, true⟩).exitCode = some 101 ∧
    (prepareWorkspace ⟨true, false, some "mb", none, true⟩).exitCode = some 102 ∧
    (prepareWorkspace ⟨true, true, none, none, true⟩).exitCode = some 103 := by
  refine ⟨?_, ?_, ?_⟩
  · exact ((prepareWorkspace_gates ⟨false, true, some "mb", none, true⟩).1 rfl).1
  · exact ((prepareWorkspace_gates ⟨true, false, some "mb", none, true⟩).2.1 rfl rfl).1
  · exact ((prepareWorkspace_gates ⟨true, true, none, none, true⟩).2.2 rfl rfl rfl).1

/-- C4: when dependency installation fails after the merge-base checkout,
`prepareWorkspace` sets exit code 104, issues exactly one workspace
restoration call, and throws the installation failure; the outcome is the
same whether restoration succeeds or fails, so a restoration failure never
masks the installation error. -/
theorem prepareWorkspace_install_failure (env : WorkspaceEnv)
    (hc : env.isClean = true) (hu : env.isUpToDate = true)
    (mb : String) (hm : env.mergeBase = some mb)
    (msg : String) (hi : env.installError = some msg) :
    (prepareWorkspace env).exitCode = some 104 ∧
    (prepareWorkspace env).restoreCalls = 1 ∧
    (prepareWorkspace env).thrownError = some "Failed to install dependencies" ∧
    (∀ b : Bool, prepareWorkspace { env with restoreOk := b } =
      { prepareWorkspace env with restoreSucceeded := some (runRestoreWorkspace b) }) := by
  refine ⟨?_, ?_, ?_, fun b => ?_⟩ <;>
    simp [prepareWorkspace, hc, hu, hm, hi]

/-- C4 witness: a concrete run with failing installation and failing
restoration still reports exit code 104 and the installation error. -/
theorem prepareWorkspace_install_failure_witness :
    (prepareWorkspace ⟨true, true, some "mb", some "npm exploded", false⟩).exitCode = some 104 ∧
    (prepareWorkspace ⟨true, true, some "mb", some "npm exploded", false⟩).restoreCalls = 1 ∧
    (prepareWorkspace ⟨true, true, some "mb", some "npm exploded", false⟩).thrownError =
      some "Failed to install dependencies" := by
  have h := prepareWorkspace_install_failure ⟨true, true, some "mb", some "npm exploded", false⟩
    rfl rfl "mb" rfl "npm exploded" rfl
  exact ⟨h.1, h.2.1, h.2.2.1⟩

/-- C8: for every response with `wasLimited`, `createBuild` assigns exit code
101 if `exceededThreshold`, else 102 if `paymentRequired`, else 100 as the
catch-all; when `wasLimited` is false none of these codes is ever assigned. -/
theorem createBuild_wasLimited (init : Option Nat) (opts : VerifyOptions) (build : Build) :
    (build.wasLimited = true →
      (createBuild init opts build).exitCodeAssignments.head? =
        some (if build.app.account.exceededThreshold then 101
          else if build.app.account.paymentRequired then 102 else 100)) ∧
    (build.wasLimited = false →
      ∀ c ∈ (createBuild init opts build).exitCodeAssignments,
        c ≠ 100 ∧ c ≠ 101 ∧ c ≠ 102) := by
  constructor
  · intro hw
    rcases build with ⟨n, w, f, ⟨⟨et, pr⟩⟩, a⟩
    subst hw
    cases et <;> cases pr <;> simp [createBuild]
  · intro hw c hc
    rcases build with ⟨n, w, f, ⟨⟨et, pr⟩⟩, a⟩
    subst hw
    simp [createBuild] at hc
    rcases hc with ⟨-, hc0⟩
    subst hc0
    simp

/-- C8 witness: a limited build with `exceededThreshold` assigns 101 first,
and an unlimited build assigns none of 100, 101, 102. -/
theorem createBuild_wasLimited_witness :
    (createBuild none ⟨false, false, false⟩
      ⟨2, true, ⟨true, true⟩, ⟨⟨true, false⟩⟩, false⟩).exitCodeAssignments.head? = some 101 ∧
    ∀ c ∈ (createBuild none ⟨false, false, false⟩
      ⟨2, false, ⟨true, true⟩, ⟨⟨true, false⟩⟩, false⟩).exitCodeAssignments,
        c ≠ 100 ∧ c ≠ 101 ∧ c ≠ 102 := by
  constructor
  · have h := (createBuild_wasLimited none ⟨false, false, false⟩
      ⟨2, true, ⟨true, true⟩, ⟨⟨true, false⟩⟩, false⟩).1 rfl
    simpa using h
  · exact (createBuild_wasLimited none ⟨false, false, false⟩
      ⟨2, false, ⟨true, true⟩, ⟨⟨true, false⟩⟩, false⟩).2 rfl

/-- C9: when the run is list-only, publish-only (neither `uiReview` nor
`uiTests`), or the branch matches the `exitOnceUploaded` policy,
`createBuild` leaves `ctx.exitCode = 0` and sets `skipSnapshots`. -/
theorem createBuild_early_exit (init : Option Nat) (opts : VerifyOptions) (build : Build)
    (h : opts.list = true ∨
      (build.features.uiReview = false ∧ build.features.uiTests = false) ∨
      opts.matchesExitOnceUploaded = true) :
    (createBuild init opts build).exitCode = some 0 ∧
    (createBuild init opts build).skipSnapshots = true := by
  have hearly : (opts.list || (!build.features.uiReview && !build.features.uiTests) ||
      opts.matchesExitOnceUploaded) = true := by
    rcases h with h | ⟨h1, h2⟩ | h
    · simp [h]
    · simp [h1, h2]
    · simp [h]
  constructor
  · simp [createBuild, hearly]
  · simp [createBuild, hearly]

/-- C9 witness: a publish-only build (no features) exits 0 with snapshots
skipped even though it was limited. -/
theorem createBuild_early_exit_witness :
    (createBuild (some 1) ⟨false, false, false⟩
      ⟨2, true, ⟨false, false⟩, ⟨⟨true, false⟩⟩, false⟩).exitCode = some 0 ∧
    (createBuild (some 1) ⟨false, false, false⟩
      ⟨2, true, ⟨false, false⟩, ⟨⟨true, false⟩⟩, false⟩).skipSnapshots = true :=
  createBuild_early_exit (some 1) ⟨false, false, false⟩
    ⟨2, true, ⟨false, false⟩, ⟨⟨true, false⟩⟩, false⟩ (Or.inr (Or.inl ⟨rfl, rfl⟩))

/-- C10: `setEnvironment` serializes exactly the environment entries whose
keys match some whitelist regex, and two process environments with the same
whitelisted entries produce an identical `ctx.environment`, so
non-whitelisted variables never influence or appear in the serialized data. -/
theorem setEnvironment_whitelist (whitelist : List (String → Bool))
    (env1 env2 : List (String × String)) :
    (∀ k v, (k, v) ∈ whitelistedEntries whitelist env1 ↔
      ((k, v) ∈ env1 ∧ matchesWhitelist whitelist k = true)) ∧
    (setEnvironment whitelist env1 = jsonStringifyObj (whitelistedEntries whitelist env1)) ∧
    (whitelistedEntries whitelist env1 = whitelistedEntries whitelist env2 →
      setEnvironment whitelist env1 = setEnvironment whitelist env2) := by
  refine ⟨fun k v => ?_, rfl, fun h => ?_⟩
  · simp [whitelistedEntries, List.mem_filter]
  · simp [setEnvironment, h]

/-- C10 witness: an environment with a secret variable serializes the same as
one without it, and the whitelisted entry is exactly what is kept. -/
theorem setEnvironment_whitelist_witness :
    whitelistedEntries [fun k => k == "CI"] [("CI", "1"), ("SECRET_TOKEN", "hunter2")] =
      [("CI", "1")] ∧
    setEnvironment [fun k => k == "CI"] [("CI", "1"), ("SECRET_TOKEN", "hunter2")] =
      setEnvironment [fun k => k == "CI"] [("CI", "1"), ("HOME", "/root")] := by
  constructor
  · rfl
  · exact (setEnvironment_whitelist [fun k => k == "CI"]
      [("CI", "1"), ("SECRET_TOKEN", "hunter2")] [("CI", "1"), ("HOME", "/root")]).2.2 rfl

/-- C1: when the exact dependency resolver fails and the coarse check over
the untraced-filtered manifest changes still reports changed manifest files,
`traceChangedFiles` sets `bailReason.changedPackageFiles` to exactly that
filtered set, with the coarse check receiving the filtered manifest changes,
and the dependency graph (`getDependentStoryFiles`) is never consulted. -/
theorem traceChangedFiles_bails_on_manifest (globMatch : String → String → Bool)
    (env : TraceEnv) (opts : TraceOptions) (git : TraceGit)
    (e : String) (hfail : env.findChangedDependencies = .error e)
    (hleft : (env.findChangedPackageFiles
      (filterManifestChanges globMatch opts.untraced git.packageManifestChanges)).isEmpty
        = false) :
    (traceChangedFiles globMatch env opts git).bailReason =
      some ⟨env.findChangedPackageFiles
        (filterManifestChanges globMatch opts.untraced git.packageManifestChanges)⟩ ∧
    (traceChangedFiles globMatch env opts git).coarseCheckArg =
      some (filterManifestChanges globMatch opts.untraced git.packageManifestChanges) ∧
    (traceChangedFiles globMatch env opts git).calledGetDependentStoryFiles = false := by
  simp [traceChangedFiles, hfail, hleft]

/-- C1 witness: the fallback scenario of the test suite, with a changed
`package.json` surviving the (empty) untraced list, bails with exactly that
path and never consults the graph. -/
theorem traceChangedFiles_bails_on_manifest_witness :
    (traceChangedFiles (fun pat p => p == "./" ++ pat)
      ⟨.error "no lockfile",
       fun mcs => (mcs.map ManifestChange.changedFiles).flatten,
       fun _ => [("123", ["./example.stories.js"])]⟩
      ⟨[], []⟩
      ⟨["./example.js", "./package.json"], [⟨"abcdef", ["./package.json"]⟩]⟩).bailReason =
      some ⟨["./package.json"]⟩ ∧
    (traceChangedFiles (fun pat p => p == "./" ++ pat)
      ⟨.error "no lockfile",
       fun mcs => (mcs.map ManifestChange.changedFiles).flatten,
       fun _ => [("123", ["./example.stories.js"])]⟩
      ⟨[], []⟩
      ⟨["./example.js", "./package.json"],
        [⟨"abcdef", ["./package.json"]⟩]⟩).calledGetDependentStoryFiles = false := by
  have h := traceChangedFiles_bails_on_manifest (fun pat p => p == "./" ++ pat)
    ⟨.error "no lockfile",
     fun mcs => (mcs.map ManifestChange.changedFiles).flatten,
     fun _ => [("123", ["./example.stories.js"])]⟩
    ⟨[], []⟩
    ⟨["./example.js", "./package.json"], [⟨"abcdef", ["./package.json"]⟩]⟩
    "no lockfile" rfl (by rfl)
  exact ⟨h.1, h.2.2⟩

/-- C2: when the exact dependency resolver fails but the coarse check over
the untraced-filtered manifest changes reports no remaining changed manifest
file, `traceChangedFiles` does not bail: it projects the remaining changed
files through the dependency graph and sets `onlyStoryFiles` to the keys of
the projection, so a resolver failure never aborts the pipeline. -/
theorem traceChangedFiles_fallback_continues (globMatch : String → String → Bool)
    (env : TraceEnv) (opts : TraceOptions) (git : TraceGit)
    (e : String) (hfail : env.findChangedDependencies = .error e)
    (hnone : (env.findChangedPackageFiles
      (filterManifestChanges globMatch opts.untraced git.packageManifestChanges)).isEmpty
        = true) :
    (traceChangedFiles globMatch env opts git).bailReason = none ∧
    (traceChangedFiles globMatch env opts git).onlyStoryFiles =
      some ((env.getDependentStoryFiles
        (filterUntraced globMatch (opts.untraced ++ opts.externals) git.changedFiles)).map
          Prod.fst) ∧
    (traceChangedFiles globMatch env opts git).calledGetDependentStoryFiles = true := by
  simp [traceChangedFiles, hfail, hnone, projectStoryFiles]

/-- C2 witness: the fallback scenario with an untraced `package.json`: the
coarse check sees no remaining manifest change, tracing continues and
`onlyStoryFiles` is the projected story-file key. -/
theorem traceChangedFiles_fallback_continues_witness :
    (traceChangedFiles (fun pat p => p == "./" ++ pat)
      ⟨.error "no lockfile",
       fun mcs => (mcs.map ManifestChange.changedFiles).flatten,
       fun _ => [("123", ["./example.stories.js"])]⟩
      ⟨["package.json"], []⟩
      ⟨["./example.js", "./package.json"], [⟨"abcdef", ["./package.json"]⟩]⟩).bailReason
      = none ∧
    (traceChangedFiles (fun pat p => p == "./" ++ pat)
      ⟨.error "no lockfile",
       fun mcs => (mcs.map ManifestChange.changedFiles).flatten,
       fun _ => [("123", ["./example.stories.js"])]⟩
      ⟨["package.json"], []⟩
      ⟨["./example.js", "./package.json"],
        [⟨"abcdef", ["./package.json"]⟩]⟩).onlyStoryFiles = some ["123"] := by
  have h := traceChangedFiles_fallback_continues (fun pat p => p == "./" ++ pat)
    ⟨.error "no lockfile",
     fun mcs => (mcs.map ManifestChange.changedFiles).flatten,
     fun _ => [("123", ["./example.stories.js"])]⟩
    ⟨["package.json"], []⟩
    ⟨["./example.js", "./package.json"], [⟨"abcdef", ["./package.json"]⟩]⟩
    "no lockfile" rfl (by rfl)
  exact ⟨h.1, h.2.1⟩

/-- C5: every manifest `validateFiles` accepts satisfies the `FileInfo`
invariants (`total` is the sum of the content lengths, `paths` and `lengths`
have equal length) and contains both `index.html` and `iframe.html`; when
the listed root is invalid it fails with `Invalid Storybook build at <dir>`,
except that an output-directory hint in the build-log file retargets
`sourceDir` and retries validation exactly once, after which an invalid
manifest is again an error at the retried directory. -/
theorem validateFiles_spec (fs : FileSystem) (ctx : ValidateCtx) :
    (∀ out, validateFiles fs ctx = .ok out →
      out.fileInfo.total = (out.fileInfo.lengths.map FileDesc.contentLength).sum ∧
      out.fileInfo.paths.length = out.fileInfo.lengths.length ∧
      isValidStorybook out.fileInfo = true) ∧
    (isValidStorybook (getFileInfo fs ctx.sourceDir) = false → ctx.buildLogFile = none →
      validateFiles fs ctx = .error ("Invalid Storybook build at " ++ ctx.sourceDir)) ∧
    (∀ logFile, isValidStorybook (getFileInfo fs ctx.sourceDir) = false →
      ctx.buildLogFile = some logFile →
      outputDirHint (fs.readFile logFile) = none →
      validateFiles fs ctx = .error ("Invalid Storybook build at " ++ ctx.sourceDir)) ∧
    (∀ logFile outDir, isValidStorybook (getFileInfo fs ctx.sourceDir) = false →
      ctx.buildLogFile = some logFile →
      outputDirHint (fs.readFile logFile) = some outDir →
      (isValidStorybook (getFileInfo fs outDir) = true →
        validateFiles fs ctx = .ok ⟨outDir, getFileInfo fs outDir⟩) ∧
      (isValidStorybook (getFileInfo fs outDir) = false →
        validateFiles fs ctx = .error ("Invalid Storybook build at " ++ outDir))) := by
  refine ⟨fun out h => ?_, fun hbad hlog => ?_, fun logFile hbad hlog hhint => ?_,
    fun logFile outDir hbad hlog hhint => ⟨fun hok => ?_, fun hbad2 => ?_⟩⟩
  · obtain ⟨hshape, hvalid⟩ := validateFiles_ok_shape fs ctx out h
    obtain ⟨ht, hl⟩ := getFileInfo_total fs out.sourceDir
    rw [hshape]
    exact ⟨ht, hl, hshape ▸ hvalid⟩
  · simp [validateFiles, hbad, hlog]
  · simp [validateFiles, hbad, hlog, hhint]
  · simp [validateFiles, hbad, hlog, hhint, hok]
  · simp [validateFiles, hbad, hlog, hhint, hbad2]

/-- C5 witness: the retry scenario of the test suite: an empty `/static/`
listing plus a build-log hint retargets to `/var/storybook-static` and
succeeds with total 84; without a build-log file the same listing fails with
the descriptive error. -/
theorem validateFiles_spec_witness :
    (validateFiles
      ⟨fun d => if d == "/var/storybook-static" then [⟨"iframe.html", 42⟩, ⟨"index.html", 42⟩]
        else [],
       fun _ => "info => Output directory: /var/storybook-static"⟩
      ⟨"/static/", some "build-storybook.log"⟩ =
      .ok ⟨"/var/storybook-static",
        ⟨["iframe.html", "index.html"],
         [⟨"iframe.html", "iframe.html", 42⟩, ⟨"index.html", "index.html", 42⟩], 84⟩⟩) ∧
    (validateFiles
      ⟨fun d => if d == "/var/storybook-static" then [⟨"iframe.html", 42⟩, ⟨"index.html", 42⟩]
        else [],
       fun _ => "info => Output directory: /var/storybook-static"⟩
      ⟨"/static/", none⟩ = .error "Invalid Storybook build at /static/") := by
  constructor
  · have h := ((validateFiles_spec
      ⟨fun d => if d == "/var/storybook-static" then [⟨"iframe.html", 42⟩, ⟨"index.html", 42⟩]
        else [],
       fun _ => "info => Output directory: /var/storybook-static"⟩
      ⟨"/static/", some "build-storybook.log"⟩).2.2.2 "build-storybook.log"
        "/var/storybook-static" (by rfl) rfl (by rfl)).1 (by rfl)
    exact h
  · have h := (validateFiles_spec
      ⟨fun d => if d == "/var/storybook-static" then [⟨"iframe.html", 42⟩, ⟨"index.html", 42⟩]
        else [],
       fun _ => "info => Output directory: /var/storybook-static"⟩
      ⟨"/static/", none⟩).2.1 (by rfl) rfl
    simpa using h

/-- C6: in direct mode, for every chunking of the manifest files and every
interleaving of the concurrent per-chunk updates, the cumulative progress
values reported are non-decreasing, never exceed the manifest total, and the
final report equals the total; `uploadStorybook` in direct mode sets
`uploadedBytes` to that total. -/
theorem uploadStorybook_direct_progress (fi : FileInfo) (targets : List FileTarget)
    (domain archiveUrl : String) (archive : Archive)
    (chunks : List (List Nat)) (s : List Nat)
    (hchunks : chunks.map List.sum = fi.lengths.map FileDesc.contentLength)
    (htotal : fi.total = (fi.lengths.map FileDesc.contentLength).sum)
    (hs : IsInterleaving chunks s) :
    List.Chain' (· ≤ ·) (progressReports 0 s) ∧
    (∀ r ∈ progressReports 0 s, r ≤ fi.total) ∧
    (s ≠ [] → (progressReports 0 s).getLast? = some fi.total) ∧
    (uploadStorybook false fi targets domain archive archiveUrl).uploadedBytes = fi.total := by
  have hsum : s.sum = fi.total := by
    rw [hs.sum_eq, hchunks, htotal]
  refine ⟨progressReports_chain s 0, fun r hr => ?_, fun hne => ?_, ?_⟩
  · have := (progressReports_bounds s 0 r hr).2
    omega
  · rw [progressReports_getLast s 0 hne, Nat.zero_add, hsum]
  · simp [uploadStorybook]

/-- C6 witness: two 42-byte files, each sent in two 21-byte chunks, in the
interleaving that sends both chunks of the first file first: the reports are
exactly 21, 42, 63, 84 and `uploadedBytes` is 84. -/
theorem uploadStorybook_direct_progress_witness :
    progressReports 0 [21, 21, 21, 21] = [21, 42, 63, 84] ∧
    List.Chain' (· ≤ ·) (progressReports 0 [21, 21, 21, 21]) ∧
    (progressReports 0 [21, 21, 21, 21]).getLast? = some 84 ∧
    (uploadStorybook false
      ⟨["iframe.html", "index.html"],
       [⟨"iframe.html", "iframe.html", 42⟩, ⟨"index.html", "index.html", 42⟩], 84⟩
      [] "https://asdqwe.chromatic.com" ⟨"storybook.zip", 80⟩
      "https://asdqwe.chromatic.com/storybook.zip").uploadedBytes = 84 := by
  have hmerge : IsInterleaving [[21, 21], [21, 21]] [21, 21, 21, 21] := by
    refine .step _ 0 21 [21] _ rfl ?_
    refine .step _ 0 21 [] _ rfl ?_
    refine .step _ 1 21 [21] _ rfl ?_
    refine .step _ 1 21 [] _ rfl ?_
    exact .nil _ (by simp)
  have h := uploadStorybook_direct_progress
    ⟨["iframe.html", "index.html"],
     [⟨"iframe.html", "iframe.html", 42⟩, ⟨"index.html", "index.html", 42⟩], 84⟩
    [] "https://asdqwe.chromatic.com" "https://asdqwe.chromatic.com/storybook.zip"
    ⟨"storybook.zip", 80⟩ [[21, 21], [21, 21]] [21, 21, 21, 21]
    (by decide) (by decide) hmerge
  refine ⟨by rfl, h.1, ?_, h.2.2.2⟩
  have := h.2.2.1 (by simp)
  simpa using this

/-- C7: in archive mode the archive is PUT with content-type
`application/zip` and a content length equal to the archive byte size, the
sentinel is confirmed, and `uploadedBytes` equals the archive size; in
particular a manifest totaling 84 bytes compressed to an 80-byte archive
yields `uploadedBytes = 80`, not 84. -/
theorem uploadStorybook_zip_archive (fi : FileInfo) (targets : List FileTarget)
    (domain archiveUrl : String) (archive : Archive) :
    (uploadStorybook true fi targets domain archive archiveUrl).requests =
      [⟨archiveUrl, "application/zip", archive.size⟩] ∧
    (uploadStorybook true fi targets domain archive archiveUrl).sentinelConfirmed = true ∧
    (uploadStorybook true fi targets domain archive archiveUrl).uploadedBytes =
      archive.size ∧
    (fi.total = 84 → archive.size = 80 →
      (uploadStorybook true fi targets domain archive archiveUrl).uploadedBytes = 80 ∧
      (uploadStorybook true fi targets domain archive archiveUrl).uploadedBytes ≠
        fi.total) := by
  refine ⟨rfl, rfl, rfl, fun h84 h80 => ?_⟩
  constructor
  · simp [uploadStorybook, h80]
  · simp [uploadStorybook, h80, h84]

/-- C7 witness: the zip scenario of the test suite: an 84-byte manifest and
an 80-byte archive give a single `application/zip` PUT of 80 bytes and
`uploadedBytes = 80`. -/
theorem uploadStorybook_zip_archive_witness :
    (uploadStorybook true
      ⟨["iframe.html", "index.html"],
       [⟨"iframe.html", "iframe.html", 42⟩, ⟨"index.html", "index.html", 42⟩], 84⟩
      [] "https://asdqwe.chromatic.com" ⟨"storybook.zip", 80⟩
      "https://asdqwe.chromatic.com/storybook.zip").requests =
      [⟨"https://asdqwe.chromatic.com/storybook.zip", "application/zip", 80⟩] ∧
    (uploadStorybook true
      ⟨["iframe.html", "index.html"],
       [⟨"iframe.html", "iframe.html", 42⟩, ⟨"index.html", "index.html", 42⟩], 84⟩
      [] "https://asdqwe.chromatic.com" ⟨"storybook.zip", 80⟩
      "https://asdqwe.chromatic.com/storybook.zip").uploadedBytes = 80 := by
  have h := uploadStorybook_zip_archive
    ⟨["iframe.html", "index.html"],
     [⟨"iframe.html", "iframe.html", 42⟩, ⟨"index.html", "index.html", 42⟩], 84⟩
    [] "https://asdqwe.chromatic.com" "https://asdqwe.chromatic.com/storybook.zip"
    ⟨"storybook.zip", 80⟩
  exact ⟨h.1, (h.2.2.2 rfl rfl).1⟩

end Chromatic
